import Mathlib

/-!
Shallow embedding of the Clinic-Hospital-Management-System repository
(`app.py`, `admin_navigation.py`, `doctor_navigation.py`).

Dates are modelled as integers counting days since 1970-01-01 (the value of
a Python `datetime.date`, up to the standard civil-calendar bijection, which
is embedded below as `daysFromCivil` / `civilFromDays`).  Database rows are
records mirroring the SQLAlchemy models; the database is a record of row
lists.  Each user-facing mutation (a button handler in the Streamlit code)
becomes a function `DB → Except String DB` returning `Except.error msg`
exactly where the handler shows an error / warning and performs no commit.
-/

namespace Clinic

/-! ## Civil calendar arithmetic

Python's `datetime.date` is a proleptic Gregorian date.  The conversion
between (year, month, day) triples and linear day counts is the standard
civil-from-days / days-from-civil algorithm, written here with floor
division (which is what `Int./` and `Int.%` are). -/

/-- Day count since 1970-01-01 of the Gregorian date (y, m, d). -/
def daysFromCivil (y m d : Int) : Int :=
  let yAdj := if m ≤ 2 then y - 1 else y
  let era := yAdj / 400
  let yoe := yAdj - era * 400
  let mp := (m + 9) % 12
  let doy := (153 * mp + 2) / 5 + d - 1
  let doe := yoe * 365 + yoe / 4 - yoe / 100 + doy
  era * 146097 + doe - 719468

/-- Gregorian (year, month, day) of a day count since 1970-01-01. -/
def civilFromDays (z : Int) : Int × Int × Int :=
  let z2 := z + 719468
  let era := z2 / 146097
  let doe := z2 - era * 146097
  let yoe := (doe - doe / 1460 + doe / 36524 - doe / 146096) / 365
  let y := yoe + era * 400
  let doy := doe - (365 * yoe + yoe / 4 - yoe / 100)
  let mp := (5 * doy + 2) / 153
  let d := doy - (153 * mp + 2) / 5 + 1
  let m := if mp < 10 then mp + 3 else mp - 9
  (if m ≤ 2 then y + 1 else y, m, d)

/-- Python's `date.weekday()`: Monday = 0, ..., Sunday = 6.
Day 0 (1970-01-01) was a Thursday, hence the offset 3. -/
def pyWeekday (z : Int) : Int := (z + 3) % 7

/-! ## Data model (the SQLAlchemy rows) -/

/-- Row of the `patients` table (`app.py`, class `Patient`). -/
structure Patient where
  id : Nat
  name : String
  mobile : String
  dob : Option Int
  reason_to_visit : String
  status : String
  prescriptions : Option String
deriving Repr, DecidableEq

/-- Row of the `appointments` table (class `Appointment`). -/
structure Appointment where
  id : Nat
  patient_id : Nat
  doctor_name : String
  date : Int
  time : Nat
  reason : String
  status : String
  cancellation_reason : Option String
deriving Repr, DecidableEq

/-- Row of the `doctor_assignments` table (class `DoctorAssignment`). -/
structure DoctorAssignment where
  id : Nat
  patient_id : Nat
  doctor_name : String
  assignment_date : Int
deriving Repr, DecidableEq

/-- The clinic database: the three row tables the claims are about. -/
structure DB where
  patients : List Patient
  appointments : List Appointment
  doctor_assignments : List DoctorAssignment
deriving Repr, DecidableEq

/-! ## Helpers shared by the operations -/

/-- Update the first element of a list satisfying `p` (SQLAlchemy mutates the
single ORM object returned by `.first()` / iteration, i.e. the first match). -/
def updateFirst (p : α → Bool) (f : α → α) : List α → List α
  | [] => []
  | x :: xs => if p x then f x :: xs else x :: updateFirst p f xs

/-- The `st.date_input` widget with `min_value` / `max_value` bounds: a date
outside the bounds cannot be picked, so an out-of-range value is never
submitted (the widget yields no date). -/
def date_input (minValue maxValue : Int) (picked : Option Int) : Option Int :=
  match picked with
  | none => none
  | some d => if minValue ≤ d ∧ d ≤ maxValue then some d else none

/-! ## Operations

Each constructor carries the inputs of one button handler.  `mld` is the
date at which the Python modules were imported: the SQLAlchemy column
default `assignment_date = Column(Date, default=datetime.today().date())`
evaluates `datetime.today()` once, at class-definition (module import) time,
so every insert relying on the default gets that fixed date. -/

inductive Op where
  | register (today : Int) (name mobile : String) (dobPicked : Option Int) (reason : String)
  | createAppointment (today : Int) (pid : Nat) (doctor : String) (date : Int) (time : Nat) (reason : String)
  | adminAssign (mld today : Int) (pid : Nat) (doctor : String)
  | doctorAdd (doctor : String) (apptId : Nat)
  | doctorRequestCancel (doctor : String) (apptId : Nat) (reason : String)
  | adminApprove (apptId : Nat)
  | adminDeny (apptId : Nat)
  | markCompleted (doctor : String) (pid : Nat)
  | saveNotes (doctor : String) (pid : Nat) (notes : String)
deriving Repr, DecidableEq

/-- Patient registration (`app.py`, `show_auth_page`, the
`patient_registration_form` submit handler, lines 217-238). -/
def register (today : Int) (name mobile : String) (dobPicked : Option Int)
    (reason : String) (db : DB) : Except String DB :=
  let dob := date_input (today - 30) today dobPicked
  if name == "" || mobile == "" || dob.isNone || reason == "" then
    Except.error "Please fill all fields."
  else if db.patients.any (fun p => p.mobile == mobile.trim) then
    Except.error "This mobile number is already registered."
  else
    Except.ok { db with patients := db.patients ++
      [{ id := db.patients.length + 1, name := name.trim, mobile := mobile.trim,
         dob := dob, reason_to_visit := reason.trim,
         status := "Active", prescriptions := none }] }

/-- Admin appointment creation (`admin_navigation.py`, `manage_appointments`,
"Schedule Appointment" handler, lines 151-169).  The `st.date_input` has
`min_value = today`, so a date before today cannot be submitted; the
`Appointment` row gets the column defaults `status = "Scheduled"` and
`cancellation_reason = NULL`. -/
def createAppointment (today : Int) (pid : Nat) (doctor : String) (date : Int)
    (time : Nat) (reason : String) (db : DB) : Except String DB :=
  match db.patients.find? (fun q => q.id == pid) with
  | none => Except.ok db
  | some _ =>
    if date < today then
      Except.error "date before min_value"
    else
      Except.ok { db with appointments := db.appointments ++
        [{ id := db.appointments.length + 1, patient_id := pid, doctor_name := doctor,
           date := date, time := time, reason := reason,
           status := "Scheduled", cancellation_reason := none }] }

/-- Admin "Assign" handler (`admin_navigation.py`,
`manage_patients_and_assignments`, lines 127-144).  The guards are computed
from the assignments dated `today` (line 127 calls `datetime.today()` at
render time), but the inserted row takes the `assignment_date` column
default, which is `mld`, the module-import date. -/
def adminAssign (mld today : Int) (pid : Nat) (doctor : String) (db : DB) :
    Except String DB :=
  match db.patients.find? (fun q => q.id == pid) with
  | none => Except.ok db
  | some _ =>
    let assigned_doctors_today :=
      (db.doctor_assignments.filter
        (fun a => a.patient_id == pid && a.assignment_date == today)).map
        (fun a => a.doctor_name)
    if doctor == "" then Except.ok db
    else if 2 ≤ assigned_doctors_today.length then
      Except.error "Limit Reached: Max 2 doctors per day."
    else if assigned_doctors_today.contains doctor then
      Except.error "already assigned"
    else
      Except.ok { db with doctor_assignments := db.doctor_assignments ++
        [{ id := db.doctor_assignments.length + 1, patient_id := pid,
           doctor_name := doctor, assignment_date := mld }] }

/-- Doctor "Add to My Patient List" handler (`doctor_navigation.py`,
`manage_my_appointments`, lines 167-187).  The button exists only for a
Scheduled appointment of this doctor with no identical
(patient, doctor, appointment-date) assignment row. -/
def doctorAdd (doctor : String) (apptId : Nat) (db : DB) : Except String DB :=
  match db.appointments.find?
      (fun a => a.id == apptId && a.doctor_name == doctor && a.status == "Scheduled") with
  | none => Except.ok db
  | some appt =>
    if db.doctor_assignments.any
        (fun a => a.patient_id == appt.patient_id && a.doctor_name == doctor
          && a.assignment_date == appt.date) then
      Except.ok db
    else
      Except.ok { db with doctor_assignments := db.doctor_assignments ++
        [{ id := db.doctor_assignments.length + 1, patient_id := appt.patient_id,
           doctor_name := doctor, assignment_date := appt.date }] }

/-- Doctor "Request to Cancel" form handler (`doctor_navigation.py`,
`manage_my_appointments`, lines 189-202); the form is rendered only under
`appt.status == "Scheduled"` for this doctor's appointments. -/
def doctorRequestCancel (doctor : String) (apptId : Nat) (reason : String)
    (db : DB) : Except String DB :=
  match db.appointments.find?
      (fun a => a.id == apptId && a.doctor_name == doctor && a.status == "Scheduled") with
  | none => Except.ok db
  | some _ =>
    if reason == "" then
      Except.error "A reason is required to request cancellation."
    else
      let appts := updateFirst
        (fun a => a.id == apptId && a.doctor_name == doctor && a.status == "Scheduled")
        (fun a => { a with status := "Cancellation Requested",
                           cancellation_reason := some reason })
        db.appointments
      Except.ok { db with appointments := appts }

/-- Admin "Approve" handler (`admin_navigation.py`, `manage_appointments`,
lines 181-187); the button is rendered only for appointments of the
`status == "Cancellation Requested"` query. -/
def adminApprove (apptId : Nat) (db : DB) : Except String DB :=
  match db.appointments.find?
      (fun a => a.id == apptId && a.status == "Cancellation Requested") with
  | none => Except.ok db
  | some _ =>
    let appts := updateFirst
      (fun a => a.id == apptId && a.status == "Cancellation Requested")
      (fun a => { a with status := "Cancelled" }) db.appointments
    Except.ok { db with appointments := appts }

/-- Admin "Deny" handler (`admin_navigation.py`, `manage_appointments`,
lines 188-195). -/
def adminDeny (apptId : Nat) (db : DB) : Except String DB :=
  match db.appointments.find?
      (fun a => a.id == apptId && a.status == "Cancellation Requested") with
  | none => Except.ok db
  | some _ =>
    let appts := updateFirst
      (fun a => a.id == apptId && a.status == "Cancellation Requested")
      (fun a => { a with status := "Scheduled", cancellation_reason := none })
      db.appointments
    Except.ok { db with appointments := appts }

/-- The row filter of the doctor pages (`doctor_navigation.py`,
`manage_my_patients`, lines 105-106): the patient is listed for this doctor
iff some assignment of the doctor references it and its status is Active. -/
def listedFor (doctor : String) (db : DB) (q : Patient) : Bool :=
  q.status == "Active"
    && db.doctor_assignments.any
        (fun a => a.doctor_name == doctor && a.patient_id == q.id)

/-- Doctor confirmed "Mark as Completed" handler (`doctor_navigation.py`,
`manage_my_patients`, lines 126-141). -/
def markCompleted (doctor : String) (pid : Nat) (db : DB) : Except String DB :=
  match db.patients.find? (fun q => q.id == pid && listedFor doctor db q) with
  | none => Except.ok db
  | some _ =>
    let pats := updateFirst (fun q => q.id == pid && listedFor doctor db q)
      (fun q => { q with status := "Completed" }) db.patients
    Except.ok { db with patients := pats }

/-- Doctor "Save Notes" handler (`doctor_navigation.py`, `manage_my_patients`,
lines 118-124). -/
def saveNotes (doctor : String) (pid : Nat) (notes : String) (db : DB) :
    Except String DB :=
  match db.patients.find? (fun q => q.id == pid && listedFor doctor db q) with
  | none => Except.ok db
  | some _ =>
    let pats := updateFirst (fun q => q.id == pid && listedFor doctor db q)
      (fun q => { q with prescriptions := some notes }) db.patients
    Except.ok { db with patients := pats }

/-- Dispatch one operation. -/
def runOp (op : Op) (db : DB) : Except String DB :=
  match op with
  | .register today name mobile dobPicked reason => register today name mobile dobPicked reason db
  | .createAppointment today pid doctor date time reason => createAppointment today pid doctor date time reason db
  | .adminAssign mld today pid doctor => adminAssign mld today pid doctor db
  | .doctorAdd doctor apptId => doctorAdd doctor apptId db
  | .doctorRequestCancel doctor apptId reason => doctorRequestCancel doctor apptId reason db
  | .adminApprove apptId => adminApprove apptId db
  | .adminDeny apptId => adminDeny apptId db
  | .markCompleted doctor pid => markCompleted doctor pid db
  | .saveNotes doctor pid notes => saveNotes doctor pid notes db

/-- The database after an operation: a rejected operation commits nothing. -/
def applyOp (op : Op) (db : DB) : DB :=
  match runOp op db with
  | Except.ok db2 => db2
  | Except.error _ => db

/-! ## Dashboard calendar metrics (`admin_navigation.py`,
`show_dashboard_calendar`, lines 95-110) -/

/-- First day of the month of `today`: `datetime(year, month, 1)`. -/
def startOfMonth (today : Int) : Int :=
  let c := civilFromDays today
  daysFromCivil c.1 c.2.1 1

/-- Last day of the month of `today`:
`(start_of_month + timedelta(days=32)).replace(day=1) - timedelta(days=1)`. -/
def endOfMonth (today : Int) : Int :=
  let c := civilFromDays (startOfMonth today + 32)
  daysFromCivil c.1 c.2.1 1 - 1

/-- The appointments of the monthly query:
`Appointment.date.between(start_of_month, end_of_month)`. -/
def monthlyAppointments (today : Int) (db : DB) : List Appointment :=
  db.appointments.filter
    (fun a => startOfMonth today ≤ a.date && a.date ≤ endOfMonth today)

/-- The monthly metric: `len(appointments)`. -/
def monthlyCount (today : Int) (db : DB) : Nat :=
  (monthlyAppointments today db).length

/-- The weekly metric:
`sum(1 for appt in appointments if week_start.date() <= appt.date <= today.date())`
with `week_start = today - timedelta(days=today.weekday())`. -/
def weeklyCount (today : Int) (db : DB) : Nat :=
  ((monthlyAppointments today db).filter
    (fun a => today - pyWeekday today ≤ a.date && a.date ≤ today)).length

/-- Modelled from the spec wording of the weekly metric: the count of all
appointments whose date lies in the current Monday-start week, i.e. in
`[today - weekday(today), today - weekday(today) + 6]`. -/
def specWeeklyCount (today : Int) (db : DB) : Nat :=
  (db.appointments.filter
    (fun a => today - pyWeekday today ≤ a.date
      && a.date ≤ today - pyWeekday today + 6)).length

/-- Distinct doctors assigned to patient `pid` on date `d`. -/
def distinctDoctorCount (pid : Nat) (d : Int) (db : DB) : Nat :=
  (((db.doctor_assignments.filter
      (fun a => a.patient_id == pid && a.assignment_date == d)).map
      (fun a => a.doctor_name)).dedup).length

/-! ## Status evolution predicates -/

/-- The appointment status edges the specification allows: stay put,
Scheduled → CancellationRequested (only under a doctor cancellation request,
witnessed by `isReq`), CancellationRequested → Cancelled (only under an admin
approve, `isApprove`), and CancellationRequested → Scheduled (only under an
admin deny, `isDeny`). -/
def statusEdgeOK (isReq isApprove isDeny : Prop) (s t : String) : Prop :=
  s = t
    ∨ (s = "Scheduled" ∧ t = "Cancellation Requested" ∧ isReq)
    ∨ (s = "Cancellation Requested" ∧ t = "Cancelled" ∧ isApprove)
    ∨ (s = "Cancellation Requested" ∧ t = "Scheduled" ∧ isDeny)

/-- One step of the appointment table: rows are never deleted, surviving rows
change status only along `statusEdgeOK`, a Cancelled row is untouched
entirely, and any newly created row starts out Scheduled. -/
def apptListEvolves (isReq isApprove isDeny : Prop)
    (old new : List Appointment) : Prop :=
  old.length ≤ new.length
  ∧ (∀ i (h1 : i < old.length) (h2 : i < new.length),
      statusEdgeOK isReq isApprove isDeny
        (old.get ⟨i, h1⟩).status (new.get ⟨i, h2⟩).status
      ∧ ((old.get ⟨i, h1⟩).status = "Cancelled" →
          new.get ⟨i, h2⟩ = old.get ⟨i, h1⟩))
  ∧ (∀ j (h3 : j < new.length), old.length ≤ j →
      (new.get ⟨j, h3⟩).status = "Scheduled")

/-- One step of the patient table: rows are never deleted, a surviving row
either keeps its status or moves Active → Completed — and the latter only
when the operation was a confirmed Mark-as-Completed — and any newly created
row starts out Active. -/
def patientListEvolves (isMark : Prop) (old new : List Patient) : Prop :=
  old.length ≤ new.length
  ∧ (∀ i (h1 : i < old.length) (h2 : i < new.length),
      (new.get ⟨i, h2⟩).status = (old.get ⟨i, h1⟩).status
      ∨ ((old.get ⟨i, h1⟩).status = "Active"
          ∧ (new.get ⟨i, h2⟩).status = "Completed" ∧ isMark))
  ∧ (∀ j (h3 : j < new.length), old.length ≤ j →
      (new.get ⟨j, h3⟩).status = "Active")

/-! ## Concrete databases used in witnesses and counterexamples -/

/-- A registered patient. -/
def paAsha : Patient :=
  { id := 1, name := "Asha Rao", mobile := "9876543210", dob := some 100,
    reason_to_visit := "fever", status := "Active", prescriptions := none }

/-- A Scheduled appointment of patient 1 with Dr. Ghosh on day 100. -/
def apGhosh : Appointment :=
  { id := 1, patient_id := 1, doctor_name := "Dr. Ghosh", date := 100,
    time := 540, reason := "checkup", status := "Scheduled",
    cancellation_reason := none }

/-- A database in which patient 1 already has two distinct doctors assigned
on day 100 and a Scheduled appointment with a third doctor on day 100. -/
def capDB : DB :=
  { patients := [paAsha],
    appointments := [apGhosh],
    doctor_assignments :=
      [{ id := 1, patient_id := 1, doctor_name := "Dr. Das", assignment_date := 100 },
       { id := 2, patient_id := 1, doctor_name := "Dr. Santra", assignment_date := 100 }] }

/-- A database with one patient and no assignments. -/
def onePatientDB : DB :=
  { patients := [paAsha], appointments := [], doctor_assignments := [] }

/-- The appointment `apGhosh` with a pending cancellation request. -/
def apReq : Appointment :=
  { id := 1, patient_id := 1, doctor_name := "Dr. Ghosh", date := 100,
    time := 540, reason := "checkup", status := "Cancellation Requested",
    cancellation_reason := some "relocating" }

/-- A database with one pending cancellation request. -/
def reqDB : DB :=
  { patients := [paAsha], appointments := [apReq], doctor_assignments := [] }

/-- The empty database. -/
def emptyDB : DB :=
  { patients := [], appointments := [], doctor_assignments := [] }

/-- Asha's stored row after a day-100 registration with date of birth 90
(the stored text fields are the trimmed inputs). -/
def paAshaStored : Patient :=
  { id := 1, name := "Asha Rao".trim, mobile := "9876543210".trim,
    dob := some 90, reason_to_visit := "fever".trim, status := "Active",
    prescriptions := none }

/-- The database obtained by registering Asha (day-100 submission, date of
birth on day 90) into the empty database. -/
def ashaDB : DB :=
  { patients := [paAshaStored], appointments := [], doctor_assignments := [] }

/-- Wednesday 2024-01-17 as a day count. -/
def c4Today : Int := daysFromCivil 2024 1 17

/-- An appointment on Friday 2024-01-19. -/
def apFriday : Appointment :=
  { id := 1, patient_id := 1, doctor_name := "Dr. Das",
    date := daysFromCivil 2024 1 19, time := 540, reason := "checkup",
    status := "Scheduled", cancellation_reason := none }

/-- A database whose single appointment falls on Friday 2024-01-19: the same
Monday-start week and the same month as `c4Today`, but after it. -/
def c4DB : DB :=
  { patients := [paAsha], appointments := [apFriday], doctor_assignments := [] }

/-! ## Theorems -/

theorem length_updateFirst (p : α → Bool) (f : α → α) :
    ∀ l : List α, (updateFirst p f l).length = l.length := by
  intro l
  induction l with
  | nil => rfl
  | cons x xs ih =>
    simp only [updateFirst]
    split <;> simp [ih]

theorem get_updateFirst (p : α → Bool) (f : α → α) :
    ∀ (l : List α) (i : Nat) (h1 : i < l.length) (h2 : i < (updateFirst p f l).length),
      (updateFirst p f l).get ⟨i, h2⟩ = l.get ⟨i, h1⟩
      ∨ ((updateFirst p f l).get ⟨i, h2⟩ = f (l.get ⟨i, h1⟩)
          ∧ p (l.get ⟨i, h1⟩) = true) := by
  intro l
  induction l with
  | nil => intro i h1 _; exact absurd h1 (Nat.not_lt_zero i)
  | cons x xs ih =>
    intro i h1 h2
    by_cases hp : p x
    · cases i with
      | zero => right; constructor <;> simp [updateFirst, hp]
      | succ n => left; simp [updateFirst, hp]
    · cases i with
      | zero => left; simp [updateFirst, hp]
      | succ n =>
        have h2x : n < (updateFirst p f xs).length := by
          have := h2
          simp [updateFirst, hp] at this
          omega
        rcases ih n (by simpa using h1) h2x with h | ⟨h, hpx⟩
        · left; simpa [updateFirst, hp] using h
        · right
          refine ⟨?_, by simpa using hpx⟩
          simpa [updateFirst, hp] using h

theorem updateFirst_of_find? (p : α → Bool) (f : α → α) :
    ∀ (l : List α) (x : α), l.find? p = some x →
      ∃ l1 l2, l = l1 ++ x :: l2 ∧ updateFirst p f l = l1 ++ f x :: l2 := by
  intro l
  induction l with
  | nil => intro x h; simp [List.find?] at h
  | cons a t ih =>
    intro x h
    by_cases hp : p a
    · have hx : a = x := by
        rw [List.find?_cons_of_pos _ hp] at h
        exact Option.some.inj h
      subst hx
      exact ⟨[], t, by simp, by simp [updateFirst, hp]⟩
    · rw [List.find?_cons_of_neg _ hp] at h
      obtain ⟨l1, l2, hl, hu⟩ := ih x h
      exact ⟨a :: l1, l2, by simp [hl], by simp [updateFirst, hp, hu]⟩

theorem get_append_of_lt (l l' : List α) (i : Nat) (h1 : i < l.length)
    (h2 : i < (l ++ l').length) : (l ++ l').get ⟨i, h2⟩ = l.get ⟨i, h1⟩ := by
  induction l generalizing i with
  | nil => exact absurd h1 (Nat.not_lt_zero i)
  | cons x xs ih =>
    cases i with
    | zero => rfl
    | succ n => simpa using ih n (by simpa using h1) (by simpa using h2)

theorem get_append_singleton (l : List α) (a : α)
    (h : l.length < (l ++ [a]).length) : (l ++ [a]).get ⟨l.length, h⟩ = a := by
  induction l with
  | nil => rfl
  | cons x xs ih => exact ih (by simp)

theorem apptListEvolves_refl (isReq isApprove isDeny : Prop)
    (l : List Appointment) : apptListEvolves isReq isApprove isDeny l l :=
  ⟨Nat.le_refl _,
   fun _ _ _ => ⟨Or.inl rfl, fun _ => rfl⟩,
   fun j h3 hj => absurd h3 (by omega)⟩

theorem apptListEvolves_update (isReq isApprove isDeny : Prop)
    (p : Appointment → Bool) (f : Appointment → Appointment)
    (l : List Appointment)
    (hp : ∀ a, p a = true →
      statusEdgeOK isReq isApprove isDeny a.status (f a).status
      ∧ a.status ≠ "Cancelled") :
    apptListEvolves isReq isApprove isDeny l (updateFirst p f l) := by
  refine ⟨by rw [length_updateFirst], ?_, ?_⟩
  · intro i h1 h2
    rcases get_updateFirst p f l i h1 h2 with h | ⟨heq, hpa⟩
    · rw [h]; exact ⟨Or.inl rfl, fun _ => rfl⟩
    · obtain ⟨hedge, hnc⟩ := hp _ hpa
      rw [heq]
      exact ⟨hedge, fun hc => absurd hc hnc⟩
  · intro j h3 hj
    rw [length_updateFirst] at h3
    omega

theorem apptListEvolves_append (isReq isApprove isDeny : Prop)
    (l : List Appointment) (a : Appointment)
    (ha : a.status = "Scheduled") :
    apptListEvolves isReq isApprove isDeny l (l ++ [a]) := by
  refine ⟨by simp, ?_, ?_⟩
  · intro i h1 h2
    rw [get_append_of_lt l [a] i h1 h2]
    exact ⟨Or.inl rfl, fun _ => rfl⟩
  · intro j h3 hj
    have hlen : (l ++ [a]).length = l.length + 1 := by simp
    have hje : j = l.length := by omega
    subst hje
    rw [get_append_singleton l a h3]
    exact ha

theorem patientListEvolves_refl (isMark : Prop) (l : List Patient) :
    patientListEvolves isMark l l :=
  ⟨Nat.le_refl _,
   fun _ _ _ => Or.inl rfl,
   fun j h3 hj => absurd h3 (by omega)⟩

theorem patientListEvolves_update (isMark : Prop) (p : Patient → Bool)
    (f : Patient → Patient) (l : List Patient)
    (hp : ∀ q, p q = true →
      (f q).status = q.status ∨ (q.status = "Active" ∧ (f q).status = "Completed" ∧ isMark)) :
    patientListEvolves isMark l (updateFirst p f l) := by
  refine ⟨by rw [length_updateFirst], ?_, ?_⟩
  · intro i h1 h2
    rcases get_updateFirst p f l i h1 h2 with h | ⟨heq, hpa⟩
    · rw [h]; exact Or.inl rfl
    · rw [heq]; exact hp _ hpa
  · intro j h3 hj
    rw [length_updateFirst] at h3
    omega

theorem patientListEvolves_append (isMark : Prop) (l : List Patient) (q : Patient)
    (hq : q.status = "Active") : patientListEvolves isMark l (l ++ [q]) := by
  refine ⟨by simp, ?_, ?_⟩
  · intro i h1 h2
    rw [get_append_of_lt l [q] i h1 h2]
    exact Or.inl rfl
  · intro j h3 hj
    have hlen : (l ++ [q]).length = l.length + 1 := by simp
    have hje : j = l.length := by omega
    subst hje
    rw [get_append_singleton l q h3]
    exact hq

theorem runOp_ok_appointments (op : Op) (db db2 : DB)
    (h : runOp op db = Except.ok db2) :
    apptListEvolves (∃ d i r, op = Op.doctorRequestCancel d i r)
      (∃ i, op = Op.adminApprove i) (∃ i, op = Op.adminDeny i)
      db.appointments db2.appointments := by
  cases op with
  | register today name mobile dobPicked reason =>
    simp only [runOp, register] at h
    split at h
    · simp at h
    · split at h
      · simp at h
      · obtain rfl := Except.ok.inj h
        exact apptListEvolves_refl _ _ _ _
  | createAppointment today pid doctor date time reason =>
    simp only [runOp, createAppointment] at h
    split at h
    · obtain rfl := Except.ok.inj h
      exact apptListEvolves_refl _ _ _ _
    · split at h
      · simp at h
      · obtain rfl := Except.ok.inj h
        exact apptListEvolves_append _ _ _ _ _ rfl
  | adminAssign mld today pid doctor =>
    simp only [runOp, adminAssign] at h
    split at h
    · obtain rfl := Except.ok.inj h
      exact apptListEvolves_refl _ _ _ _
    · split at h
      · obtain rfl := Except.ok.inj h
        exact apptListEvolves_refl _ _ _ _
      · split at h
        · simp at h
        · split at h
          · simp at h
          · obtain rfl := Except.ok.inj h
            exact apptListEvolves_refl _ _ _ _
  | doctorAdd doctor apptId =>
    simp only [runOp, doctorAdd] at h
    split at h
    · obtain rfl := Except.ok.inj h
      exact apptListEvolves_refl _ _ _ _
    · split at h
      · obtain rfl := Except.ok.inj h
        exact apptListEvolves_refl _ _ _ _
      · obtain rfl := Except.ok.inj h
        exact apptListEvolves_refl _ _ _ _
  | doctorRequestCancel doctor apptId reason =>
    simp only [runOp, doctorRequestCancel] at h
    split at h
    · obtain rfl := Except.ok.inj h
      exact apptListEvolves_refl _ _ _ _
    · split at h
      · simp at h
      · obtain rfl := Except.ok.inj h
        refine apptListEvolves_update _ _ _ _ _ _ ?_
        intro a hpa
        simp only [Bool.and_eq_true, beq_iff_eq] at hpa
        obtain ⟨⟨-, -⟩, hs⟩ := hpa
        refine ⟨Or.inr (Or.inl ⟨hs, rfl, doctor, apptId, reason, rfl⟩), ?_⟩
        rw [hs]
        decide
  | adminApprove apptId =>
    simp only [runOp, adminApprove] at h
    split at h
    · obtain rfl := Except.ok.inj h
      exact apptListEvolves_refl _ _ _ _
    · obtain rfl := Except.ok.inj h
      refine apptListEvolves_update _ _ _ _ _ _ ?_
      intro a hpa
      simp only [Bool.and_eq_true, beq_iff_eq] at hpa
      obtain ⟨-, hs⟩ := hpa
      refine ⟨Or.inr (Or.inr (Or.inl ⟨hs, rfl, apptId, rfl⟩)), ?_⟩
      rw [hs]
      decide
  | adminDeny apptId =>
    simp only [runOp, adminDeny] at h
    split at h
    · obtain rfl := Except.ok.inj h
      exact apptListEvolves_refl _ _ _ _
    · obtain rfl := Except.ok.inj h
      refine apptListEvolves_update _ _ _ _ _ _ ?_
      intro a hpa
      simp only [Bool.and_eq_true, beq_iff_eq] at hpa
      obtain ⟨-, hs⟩ := hpa
      refine ⟨Or.inr (Or.inr (Or.inr ⟨hs, rfl, apptId, rfl⟩)), ?_⟩
      rw [hs]
      decide
  | markCompleted doctor pid =>
    simp only [runOp, markCompleted] at h
    split at h
    · obtain rfl := Except.ok.inj h
      exact apptListEvolves_refl _ _ _ _
    · obtain rfl := Except.ok.inj h
      exact apptListEvolves_refl _ _ _ _
  | saveNotes doctor pid notes =>
    simp only [runOp, saveNotes] at h
    split at h
    · obtain rfl := Except.ok.inj h
      exact apptListEvolves_refl _ _ _ _
    · obtain rfl := Except.ok.inj h
      exact apptListEvolves_refl _ _ _ _

theorem runOp_ok_patients (op : Op) (db db2 : DB)
    (h : runOp op db = Except.ok db2) :
    patientListEvolves (∃ d p2, op = Op.markCompleted d p2) db.patients db2.patients := by
  cases op with
  | register today name mobile dobPicked reason =>
    simp only [runOp, register] at h
    split at h
    · simp at h
    · split at h
      · simp at h
      · obtain rfl := Except.ok.inj h
        exact patientListEvolves_append _ _ _ rfl
  | createAppointment today pid doctor date time reason =>
    simp only [runOp, createAppointment] at h
    split at h
    · obtain rfl := Except.ok.inj h
      exact patientListEvolves_refl _ _
    · split at h
      · simp at h
      · obtain rfl := Except.ok.inj h
        exact patientListEvolves_refl _ _
  | adminAssign mld today pid doctor =>
    simp only [runOp, adminAssign] at h
    split at h
    · obtain rfl := Except.ok.inj h
      exact patientListEvolves_refl _ _
    · split at h
      · obtain rfl := Except.ok.inj h
        exact patientListEvolves_refl _ _
      · split at h
        · simp at h
        · split at h
          · simp at h
          · obtain rfl := Except.ok.inj h
            exact patientListEvolves_refl _ _
  | doctorAdd doctor apptId =>
    simp only [runOp, doctorAdd] at h
    split at h
    · obtain rfl := Except.ok.inj h
      exact patientListEvolves_refl _ _
    · split at h
      · obtain rfl := Except.ok.inj h
        exact patientListEvolves_refl _ _
      · obtain rfl := Except.ok.inj h
        exact patientListEvolves_refl _ _
  | doctorRequestCancel doctor apptId reason =>
    simp only [runOp, doctorRequestCancel] at h
    split at h
    · obtain rfl := Except.ok.inj h
      exact patientListEvolves_refl _ _
    · split at h
      · simp at h
      · obtain rfl := Except.ok.inj h
        exact patientListEvolves_refl _ _
  | adminApprove apptId =>
    simp only [runOp, adminApprove] at h
    split at h
    · obtain rfl := Except.ok.inj h
      exact patientListEvolves_refl _ _
    · obtain rfl := Except.ok.inj h
      exact patientListEvolves_refl _ _
  | adminDeny apptId =>
    simp only [runOp, adminDeny] at h
    split at h
    · obtain rfl := Except.ok.inj h
      exact patientListEvolves_refl _ _
    · obtain rfl := Except.ok.inj h
      exact patientListEvolves_refl _ _
  | markCompleted doctor pid =>
    simp only [runOp, markCompleted] at h
    split at h
    · obtain rfl := Except.ok.inj h
      exact patientListEvolves_refl _ _
    · obtain rfl := Except.ok.inj h
      refine patientListEvolves_update _ _ _ _ ?_
      intro q hpq
      simp only [listedFor, Bool.and_eq_true, beq_iff_eq] at hpq
      exact Or.inr ⟨hpq.2.1, rfl, doctor, pid, rfl⟩
  | saveNotes doctor pid notes =>
    simp only [runOp, saveNotes] at h
    split at h
    · obtain rfl := Except.ok.inj h
      exact patientListEvolves_refl _ _
    · obtain rfl := Except.ok.inj h
      refine patientListEvolves_update _ _ _ _ ?_
      intro q hpq
      exact Or.inl rfl

/-- C2: every operation moves each appointment's status only along the edges
Scheduled → CancellationRequested (the doctor's cancellation request),
CancellationRequested → Cancelled (the admin's approve) and
CancellationRequested → Scheduled (the admin's deny); an appointment whose
status is Cancelled is never modified at all; and every appointment created by
any operation starts out Scheduled — so along any sequence of operations
starting from a freshly created appointment no other transition is
reachable. -/
theorem appointment_status_machine (op : Op) (db : DB) :
    apptListEvolves (∃ d i r, op = Op.doctorRequestCancel d i r)
      (∃ i, op = Op.adminApprove i) (∃ i, op = Op.adminDeny i)
      db.appointments (applyOp op db).appointments := by
  cases h : runOp op db with
  | ok db2 =>
    have he : applyOp op db = db2 := by unfold applyOp; rw [h]
    rw [he]
    exact runOp_ok_appointments op db db2 h
  | error e =>
    have he : applyOp op db = db := by unfold applyOp; rw [h]
    rw [he]
    exact apptListEvolves_refl _ _ _ _

/-- Witness for C2: in `capDB` the first appointment is Scheduled, and after
the doctor's cancellation request it is CancellationRequested — an edge the
machine theorem admits at concrete indices. -/
theorem appointment_status_machine_witness :
    statusEdgeOK
      (∃ d i r, Op.doctorRequestCancel "Dr. Ghosh" 1 "relocating"
          = Op.doctorRequestCancel d i r)
      (∃ i, Op.doctorRequestCancel "Dr. Ghosh" 1 "relocating" = Op.adminApprove i)
      (∃ i, Op.doctorRequestCancel "Dr. Ghosh" 1 "relocating" = Op.adminDeny i)
      "Scheduled" "Cancellation Requested" := by
  have h1 : (0 : Nat) < capDB.appointments.length := by decide
  have h2 : (0 : Nat) <
      (applyOp (Op.doctorRequestCancel "Dr. Ghosh" 1 "relocating") capDB).appointments.length := by
    decide
  have h := ((appointment_status_machine
    (Op.doctorRequestCancel "Dr. Ghosh" 1 "relocating") capDB).2.1 0 h1 h2).1
  have e1 : (capDB.appointments.get ⟨0, h1⟩).status = "Scheduled" := rfl
  have e2 : ((applyOp (Op.doctorRequestCancel "Dr. Ghosh" 1 "relocating")
      capDB).appointments.get ⟨0, h2⟩).status = "Cancellation Requested" := rfl
  rw [e1, e2] at h
  exact h

/-- C9: every patient's status starts as Active at creation, a surviving
patient row either keeps its status or moves Active → Completed, the latter
only under the doctor's confirmed Mark-as-Completed operation, and no
operation ever moves a Completed patient back to Active. -/
theorem patient_status_machine (op : Op) (db : DB) :
    patientListEvolves (∃ d p2, op = Op.markCompleted d p2)
      db.patients (applyOp op db).patients := by
  cases h : runOp op db with
  | ok db2 =>
    have he : applyOp op db = db2 := by unfold applyOp; rw [h]
    rw [he]
    exact runOp_ok_patients op db db2 h
  | error e =>
    have he : applyOp op db = db := by unfold applyOp; rw [h]
    rw [he]
    exact patientListEvolves_refl _ _

/-- Witness for C9: in `capDB` patient 1 is Active and assigned to Dr. Das;
after the confirmed Mark-as-Completed its status is Completed, which the
machine theorem explains by the Active → Completed edge of a markCompleted
operation. -/
theorem patient_status_machine_witness :
    "Completed" = "Active"
    ∨ ("Active" = "Active" ∧ "Completed" = "Completed"
        ∧ ∃ d p2, Op.markCompleted "Dr. Das" 1 = Op.markCompleted d p2) := by
  have h1 : (0 : Nat) < capDB.patients.length := by decide
  have h2 : (0 : Nat) < (applyOp (Op.markCompleted "Dr. Das" 1) capDB).patients.length := by
    decide
  have h := (patient_status_machine (Op.markCompleted "Dr. Das" 1) capDB).2.1 0 h1 h2
  have e1 : (capDB.patients.get ⟨0, h1⟩).status = "Active" := rfl
  have e2 : ((applyOp (Op.markCompleted "Dr. Das" 1) capDB).patients.get ⟨0, h2⟩).status
      = "Completed" := rfl
  rw [e1, e2] at h
  exact h

/-- C1 counterexample: with two distinct doctors already assigned to patient 1
on day 100, the doctor's "Add to My Patient List" action is NOT rejected — it
inserts a row and brings the distinct-doctor count for (patient 1, day 100)
to 3, contradicting the claim that the count never exceeds 2 and that the
action is rejected at 2. -/
theorem doctor_add_breaks_two_doctor_cap :
    distinctDoctorCount 1 100 capDB = 2
    ∧ distinctDoctorCount 1 100 (applyOp (Op.doctorAdd "Dr. Ghosh" 1) capDB) = 3 := by
  decide

/-- C3 failing input: the modules were imported on day 40 and the admin clicks
"Assign" on day 45; the inserted assignment carries `assignment_date = 40`
(the SQLAlchemy column default `datetime.today().date()` is evaluated once at
class-definition time), not the current day 45 the claim requires. -/
theorem admin_assign_uses_module_import_date :
    ((applyOp (Op.adminAssign 40 45 1 "Dr. Das") onePatientDB).doctor_assignments.map
      (fun a => a.assignment_date)) = [40] ∧ (40 : Int) ≠ 45 := by
  decide

/-- C4 counterexample: on Wednesday 2024-01-17 an appointment on Friday
2024-01-19 lies in the current Monday-start week (and in the current month),
yet the dashboard's weekly metric does not count it, because the code filters
`week_start <= date <= today` and the appointment is after today. -/
theorem weekly_metric_misses_rest_of_week :
    weeklyCount c4Today c4DB = 0 ∧ specWeeklyCount c4Today c4DB = 1 := by
  decide

/-- C1 amended: the admin "Assign" action is rejected, with no row inserted
and the database left unchanged, whenever 2 distinct doctors are already
assigned to the patient on the current day; the doctor's "Add to My Patient
List" action performs no such check (see the counterexample), so only the
admin path enforces the cap. -/
theorem admin_assign_enforces_daily_cap (mld today : Int) (pid : Nat)
    (doctor : String) (db : DB) (h : 2 ≤ distinctDoctorCount pid today db) :
    applyOp (Op.adminAssign mld today pid doctor) db = db := by
  have hrows : 2 ≤ ((db.doctor_assignments.filter
      (fun a => a.patient_id == pid && a.assignment_date == today)).map
      (fun a => a.doctor_name)).length := by
    have hd := List.Sublist.length_le (List.dedup_sublist
      ((db.doctor_assignments.filter
        (fun a => a.patient_id == pid && a.assignment_date == today)).map
        (fun a => a.doctor_name)))
    unfold distinctDoctorCount at h
    omega
  have hres : adminAssign mld today pid doctor db = Except.ok db
      ∨ adminAssign mld today pid doctor db
          = Except.error "Limit Reached: Max 2 doctors per day." := by
    simp only [adminAssign]
    split
    · exact Or.inl rfl
    · split
      · exact Or.inl rfl
      · exact Or.inr rfl
  unfold applyOp
  simp only [runOp]
  rcases hres with he | he <;> rw [he]

/-- Witness for the amended C1 theorem: in `capDB` patient 1 already has two
distinct doctors on day 100, and the admin Assign of a third doctor on that
day leaves the database unchanged. -/
theorem admin_assign_enforces_daily_cap_witness :
    2 ≤ distinctDoctorCount 1 100 capDB
    ∧ applyOp (Op.adminAssign 40 100 1 "Dr. Ghosh") capDB = capDB :=
  ⟨by decide, admin_assign_enforces_daily_cap 40 100 1 "Dr. Ghosh" capDB (by decide)⟩

/-- C5: a submitted registration whose picked date of birth lies outside the
window [today - 30, today] fails (the bounded date widget yields no date, so
the all-fields check rejects) and creates no Patient row. -/
theorem registration_rejects_out_of_window_dob (today : Int)
    (name mobile reason : String) (d : Int) (db : DB)
    (h : d < today - 30 ∨ today < d) :
    runOp (Op.register today name mobile (some d) reason) db
      = Except.error "Please fill all fields."
    ∧ applyOp (Op.register today name mobile (some d) reason) db = db := by
  have hdi : date_input (today - 30) today (some d) = none := by
    simp only [date_input]
    rw [if_neg]
    omega
  have hrun : runOp (Op.register today name mobile (some d) reason) db
      = Except.error "Please fill all fields." := by
    simp only [runOp, register, hdi]
    rw [if_pos]
    simp
  exact ⟨hrun, by unfold applyOp; rw [hrun]⟩

/-- Witness for C5: a date of birth 40 days before day 100 is rejected. -/
theorem registration_rejects_out_of_window_dob_witness :
    ((60 : Int) < 100 - 30 ∨ (100 : Int) < 60)
    ∧ runOp (Op.register 100 "Asha Rao" "9876543210" (some 60) "fever") onePatientDB
        = Except.error "Please fill all fields." :=
  ⟨Or.inl (by decide),
   (registration_rejects_out_of_window_dob 100 "Asha Rao" "9876543210" "fever" 60
      onePatientDB (Or.inl (by decide))).1⟩

/-- C4 amended: the monthly metric counts exactly the appointments whose date
lies in the month window [startOfMonth, endOfMonth] of today, and the weekly
metric counts exactly the appointments whose date lies in that month window,
lies in the current Monday-start week, and is not after today — appointments
later in the current week (or in the same week but before the first of the
month) are excluded. -/
theorem calendar_metrics_formula (today : Int) (db : DB) :
    monthlyCount today db
      = (db.appointments.filter (fun a =>
          decide (startOfMonth today ≤ a.date ∧ a.date ≤ endOfMonth today))).length
    ∧ weeklyCount today db
      = (db.appointments.filter (fun a =>
          decide ((startOfMonth today ≤ a.date ∧ a.date ≤ endOfMonth today)
            ∧ ((today - pyWeekday today ≤ a.date
                ∧ a.date ≤ today - pyWeekday today + 6)
              ∧ a.date ≤ today)))).length := by
  have hw0 : 0 ≤ pyWeekday today := by
    unfold pyWeekday
    exact Int.emod_nonneg _ (by norm_num)
  have hw6 : pyWeekday today < 7 := by
    unfold pyWeekday
    exact Int.emod_lt_of_pos _ (by norm_num)
  constructor
  · simp [monthlyCount, monthlyAppointments, Bool.decide_and]
  · unfold weeklyCount monthlyAppointments
    rw [List.filter_filter]
    refine congrArg List.length (List.filter_congr ?_)
    intro a _
    simp only [← Bool.decide_and]
    rw [decide_eq_decide]
    omega

/-- C7: for a Scheduled appointment of the doctor, a cancellation request with
an empty reason is rejected and leaves the database unchanged, while a request
with a non-empty reason replaces exactly that appointment by the same row with
status CancellationRequested and cancellation_reason set to the given
reason. -/
theorem cancellation_request_requires_reason (doctor : String) (apptId : Nat)
    (reason : String) (db : DB) (appt : Appointment)
    (hfind : db.appointments.find?
      (fun a => a.id == apptId && a.doctor_name == doctor && a.status == "Scheduled")
      = some appt) :
    (reason = "" →
      runOp (Op.doctorRequestCancel doctor apptId reason) db
        = Except.error "A reason is required to request cancellation."
      ∧ applyOp (Op.doctorRequestCancel doctor apptId reason) db = db)
    ∧ (reason ≠ "" → ∃ l1 l2, db.appointments = l1 ++ appt :: l2
        ∧ (applyOp (Op.doctorRequestCancel doctor apptId reason) db).appointments
            = l1 ++ { appt with status := "Cancellation Requested",
                                cancellation_reason := some reason } :: l2) := by
  constructor
  · intro hre
    subst hre
    have hrun : runOp (Op.doctorRequestCancel doctor apptId "") db
        = Except.error "A reason is required to request cancellation." := by
      simp only [runOp, doctorRequestCancel, hfind]
      simp
    exact ⟨hrun, by unfold applyOp; rw [hrun]⟩
  · intro hre
    have hrun : runOp (Op.doctorRequestCancel doctor apptId reason) db
        = Except.ok { db with appointments := (updateFirst
            (fun a => a.id == apptId && a.doctor_name == doctor && a.status == "Scheduled")
            (fun a => { a with status := "Cancellation Requested",
                               cancellation_reason := some reason })
            db.appointments) } := by
      simp only [runOp, doctorRequestCancel, hfind]
      rw [if_neg]
      simp [hre]
    obtain ⟨l1, l2, hsplit, hupd⟩ := updateFirst_of_find?
      (fun a => a.id == apptId && a.doctor_name == doctor && a.status == "Scheduled")
      (fun a => { a with status := "Cancellation Requested",
                         cancellation_reason := some reason })
      db.appointments appt hfind
    refine ⟨l1, l2, hsplit, ?_⟩
    have happly : applyOp (Op.doctorRequestCancel doctor apptId reason) db
        = { db with appointments := (updateFirst
            (fun a => a.id == apptId && a.doctor_name == doctor && a.status == "Scheduled")
            (fun a => { a with status := "Cancellation Requested",
                               cancellation_reason := some reason })
            db.appointments) } := by
      unfold applyOp
      rw [hrun]
    rw [happly]
    exact hupd

/-- Witness for C7: in `capDB` the Scheduled appointment of Dr. Ghosh with a
non-empty reason becomes CancellationRequested carrying that reason. -/
theorem cancellation_request_requires_reason_witness :
    ∃ l1 l2, capDB.appointments = l1 ++ apGhosh :: l2
      ∧ (applyOp (Op.doctorRequestCancel "Dr. Ghosh" 1 "relocating") capDB).appointments
          = l1 ++ { apGhosh with status := "Cancellation Requested",
                                 cancellation_reason := some "relocating" } :: l2 :=
  (cancellation_request_requires_reason "Dr. Ghosh" 1 "relocating" capDB apGhosh rfl).2
    (by decide)

/-- C8: the admin deny action on an appointment with a pending cancellation
request replaces exactly that row by the same row with status Scheduled and
cancellation_reason cleared to null; doctor_name, date, time and reason are
untouched (the replacement is a field update of the original row) and all
other rows are unchanged. -/
theorem deny_restores_scheduled_and_clears_reason (apptId : Nat) (db : DB)
    (appt : Appointment)
    (hfind : db.appointments.find?
      (fun a => a.id == apptId && a.status == "Cancellation Requested") = some appt) :
    ∃ l1 l2, db.appointments = l1 ++ appt :: l2
      ∧ (applyOp (Op.adminDeny apptId) db).appointments
          = l1 ++ { appt with status := "Scheduled",
                              cancellation_reason := none } :: l2 := by
  have hrun : runOp (Op.adminDeny apptId) db
      = Except.ok { db with appointments := (updateFirst
          (fun a => a.id == apptId && a.status == "Cancellation Requested")
          (fun a => { a with status := "Scheduled", cancellation_reason := none })
          db.appointments) } := by
    simp only [runOp, adminDeny, hfind]
  obtain ⟨l1, l2, hsplit, hupd⟩ := updateFirst_of_find?
    (fun a => a.id == apptId && a.status == "Cancellation Requested")
    (fun a => { a with status := "Scheduled", cancellation_reason := none })
    db.appointments appt hfind
  refine ⟨l1, l2, hsplit, ?_⟩
  have happly : applyOp (Op.adminDeny apptId) db
      = { db with appointments := (updateFirst
          (fun a => a.id == apptId && a.status == "Cancellation Requested")
          (fun a => { a with status := "Scheduled", cancellation_reason := none })
          db.appointments) } := by
    unfold applyOp
    rw [hrun]
  rw [happly]
  exact hupd

/-- Witness for C8: denying the pending request of `reqDB` restores the
Scheduled row with the reason cleared. -/
theorem deny_restores_scheduled_and_clears_reason_witness :
    ∃ l1 l2, reqDB.appointments = l1 ++ apReq :: l2
      ∧ (applyOp (Op.adminDeny 1) reqDB).appointments
          = l1 ++ { apReq with status := "Scheduled",
                               cancellation_reason := none } :: l2 :=
  deny_restores_scheduled_and_clears_reason 1 reqDB apReq rfl

theorem register_ok_inv (today : Int) (name mobile : String)
    (dobPicked : Option Int) (reason : String) (db db2 : DB)
    (h : register today name mobile dobPicked reason db = Except.ok db2) :
    name ≠ "" ∧ mobile ≠ "" ∧ reason ≠ ""
    ∧ (∀ p ∈ db.patients, p.mobile ≠ mobile.trim)
    ∧ db2.patients = db.patients ++
        [{ id := db.patients.length + 1, name := name.trim, mobile := mobile.trim,
           dob := date_input (today - 30) today dobPicked,
           reason_to_visit := reason.trim, status := "Active",
           prescriptions := none }]
    ∧ db2.appointments = db.appointments
    ∧ db2.doctor_assignments = db.doctor_assignments := by
  simp only [register] at h
  split at h
  · simp at h
  · next hfields =>
    split at h
    · simp at h
    · next hdup =>
      obtain rfl := Except.ok.inj h
      simp only [Bool.or_eq_true, not_or, beq_iff_eq] at hfields
      simp only [List.any_eq_true, beq_iff_eq] at hdup
      push_neg at hdup
      obtain ⟨⟨⟨hn0, hm0⟩, -⟩, hr0⟩ := hfields
      exact ⟨hn0, hm0, hr0, hdup, rfl, rfl, rfl⟩

/-- C6: two registrations with the same mobile number cannot both succeed:
after a successful registration with mobile `m`, a further registration with
the same mobile and otherwise well-formed fields fails with the
duplicate-contact error; a further registration with mobile `m` never
succeeds whatever its other fields; and a successful registration preserves
uniqueness of the stored mobile numbers. -/
theorem duplicate_mobile_rejected (t1 t2 : Int) (n1 n2 m r1 r2 : String)
    (dob1 dob2 : Option Int) (db db1 : DB)
    (h1 : runOp (Op.register t1 n1 m dob1 r1) db = Except.ok db1)
    (hn : n2 ≠ "") (hr : r2 ≠ "")
    (hd : ∃ d, dob2 = some d ∧ t2 - 30 ≤ d ∧ d ≤ t2) :
    runOp (Op.register t2 n2 m dob2 r2) db1
      = Except.error "This mobile number is already registered."
    ∧ (∀ (t3 : Int) (n3 r3 : String) (dob3 : Option Int) (db2 : DB),
        runOp (Op.register t3 n3 m dob3 r3) db1 ≠ Except.ok db2)
    ∧ ((db.patients.map (fun p => p.mobile)).Nodup →
        (db1.patients.map (fun p => p.mobile)).Nodup) := by
  simp only [runOp] at h1
  obtain ⟨hn1, hm, hr1, hfresh, hpat, -, -⟩ :=
    register_ok_inv t1 n1 m dob1 r1 db db1 h1
  obtain ⟨d, rfl, hd1, hd2⟩ := hd
  have hdi : date_input (t2 - 30) t2 (some d) = some d := by
    simp only [date_input]
    rw [if_pos]
    exact ⟨hd1, hd2⟩
  have hany : db1.patients.any (fun p => p.mobile == m.trim) = true := by
    rw [hpat]
    simp [List.any_append]
  refine ⟨?_, ?_, ?_⟩
  · simp only [runOp, register, hdi]
    simp [hn, hm, hr, hany]
  · intro t3 n3 r3 dob3 db2 hcontra
    simp only [runOp] at hcontra
    obtain ⟨-, -, -, hfresh2, -, -, -⟩ :=
      register_ok_inv t3 n3 m dob3 r3 db1 db2 hcontra
    have hP := hany
    simp only [List.any_eq_true, beq_iff_eq] at hP
    obtain ⟨p, hp, hpm⟩ := hP
    exact hfresh2 p hp hpm
  · intro hnod
    rw [hpat, List.map_append]
    refine List.Nodup.append hnod (List.nodup_singleton _) ?_
    intro x hx1 hx2
    simp only [List.map_cons, List.map_nil, List.mem_singleton] at hx2
    subst hx2
    simp only [List.mem_map] at hx1
    obtain ⟨p, hp, hpm⟩ := hx1
    exact hfresh p hp hpm

/-- Witness for C6: registering Asha with mobile 9876543210 succeeds on the
empty database, and a second registration with the same mobile fails with the
duplicate-contact error. -/
theorem duplicate_mobile_rejected_witness :
    runOp (Op.register 101 "Binu Sen" "9876543210" (some 95) "cough") ashaDB
      = Except.error "This mobile number is already registered." :=
  (duplicate_mobile_rejected 100 101 "Asha Rao" "Binu Sen" "9876543210" "fever"
    "cough" (some 90) (some 95) emptyDB ashaDB rfl (by decide) (by decide)
    ⟨95, rfl, by decide, by decide⟩).1

/-- C10: a successful registration stores name, mobile and reason with
surrounding whitespace stripped, and the duplicate check compares against the
stripped mobile, so a later registration whose mobile differs only in
surrounding whitespace is rejected as a duplicate. -/
theorem registration_trims_whitespace (t1 t2 : Int) (n1 n2 m1 m2 r1 r2 : String)
    (dob1 dob2 : Option Int) (db db1 : DB)
    (h1 : runOp (Op.register t1 n1 m1 dob1 r1) db = Except.ok db1)
    (htrim : m2.trim = m1.trim)
    (hn : n2 ≠ "") (hm : m2 ≠ "") (hr : r2 ≠ "")
    (hd : ∃ d, dob2 = some d ∧ t2 - 30 ≤ d ∧ d ≤ t2) :
    (∃ p, db1.patients = db.patients ++ [p]
      ∧ p.name = n1.trim ∧ p.mobile = m1.trim ∧ p.reason_to_visit = r1.trim)
    ∧ runOp (Op.register t2 n2 m2 dob2 r2) db1
        = Except.error "This mobile number is already registered." := by
  simp only [runOp] at h1
  obtain ⟨hn1, hm1, hr1, hfresh, hpat, -, -⟩ :=
    register_ok_inv t1 n1 m1 dob1 r1 db db1 h1
  obtain ⟨d, rfl, hd1, hd2⟩ := hd
  have hdi : date_input (t2 - 30) t2 (some d) = some d := by
    simp only [date_input]
    rw [if_pos]
    exact ⟨hd1, hd2⟩
  have hany : db1.patients.any (fun p => p.mobile == m2.trim) = true := by
    rw [hpat]
    simp [List.any_append, htrim]
  constructor
  · exact ⟨_, hpat, rfl, rfl, rfl⟩
  · simp only [runOp, register, hdi]
    simp [hn, hm, hr, hany]

/-- Witness for C10: Asha's row was stored with trimmed fields, and a second
registration whose mobile trims to the same digits is rejected as a
duplicate. -/
theorem registration_trims_whitespace_witness :
    (∃ p, ashaDB.patients = emptyDB.patients ++ [p]
      ∧ p.name = "Asha Rao".trim ∧ p.mobile = "9876543210".trim
      ∧ p.reason_to_visit = "fever".trim)
    ∧ runOp (Op.register 101 "Binu Sen" "9876543210" (some 95) "cough") ashaDB
        = Except.error "This mobile number is already registered." :=
  registration_trims_whitespace 100 101 "Asha Rao" "Binu Sen" "9876543210"
    "9876543210" "fever" "cough" (some 90) (some 95) emptyDB ashaDB rfl rfl
    (by decide) (by decide) (by decide) ⟨95, rfl, by decide, by decide⟩

end Clinic
